import Mathlib

/-!
Verification of the libtock-rs userspace runtime core, shallowly embedded
from the Rust sources.  Machine integers are modelled as `Nat` with explicit
`% 2^w` where overflow matters; fallible operations return `Except`.
Kernel-side effects (syscalls) are recorded as explicit traces.
-/

/-- `ErrorCode` variants used by the runtime (src/platform error codes). -/
inductive ErrorCode where
  | fail
  | busy
  | already
  | off
  | reserve
  | invalid
  | size
  | cancel
  | noMem
  | noSupport
  | noDevice
  | uninstalled
  | noAck
  | badRVal
  deriving DecidableEq, Repr

-- ---------------------------------------------------------------------------
-- CAN identifier encoding (src/apis/can/src/lib.rs, `Id`)
-- ---------------------------------------------------------------------------

/-- CAN frame identifier: 11-bit standard (stored as u16 in the source) or
29-bit extended (stored as u32). -/
inductive CanId where
  | Standard (v : Nat)
  | Extended (v : Nat)
  deriving DecidableEq, Repr

/-- `impl From<u32> for Id`: if `value >> 30 == 1` the identifier is extended
(`value & 0x1fff_ffff`), otherwise standard (`(value & 0x7fff) as u16`).
Intended domain: `value < 2^32`. -/
def id_from_u32 (value : Nat) : CanId :=
  if value / 2 ^ 30 = 1 then
    CanId.Extended (value % 2 ^ 29)
  else
    CanId.Standard (value % 2 ^ 15)

/-- `impl From<Id> for u32`: both variants return the stored value unchanged;
no discriminator bit is added. -/
def u32_from_id : CanId → Nat
  | CanId.Standard v => v
  | CanId.Extended v => v

-- ---------------------------------------------------------------------------
-- CAN receive-buffer decoding (src/apis/can/src/lib.rs, `Frames`)
-- ---------------------------------------------------------------------------

def CANFRAME_SIZE : Nat := 14
def CANFRAME_MAX_NUM : Nat := 3
def UNREAD_COUNTER_SIZE : Nat := 1
def CANFRAME_HEADER_SIZE : Nat := 6
def CANFRAME_DATA_SIZE : Nat := 8

/-- A decoded CAN frame (struct `Frame`): identifier, length byte, and the
8-byte payload window. -/
structure Frame where
  id : CanId
  len : Nat
  message : List Nat
  deriving DecidableEq, Repr

/-- Iterator state over a receive buffer (struct `Frames`): the 42-byte record
area, a byte cursor, and the count byte. -/
structure Frames where
  buffers : List Nat
  index : Nat
  length : Nat
  deriving DecidableEq, Repr

/-- `impl From<[u8; 43]> for Frames`: drop the leading unread-counter byte into
`buffers` and record `buffer[0]` as the count.  Intended domain: lists of 43
bytes. -/
def frames_from_buffer (buffer : List Nat) : Frames :=
  { buffers := buffer.drop UNREAD_COUNTER_SIZE
    index := 0
    length := buffer.headD 0 }

/-- `u32::from_be_bytes` on a 4-byte list. -/
def u32_from_be_bytes (b : List Nat) : Nat :=
  b.getD 0 0 * 2 ^ 24 + b.getD 1 0 * 2 ^ 16 + b.getD 2 0 * 2 ^ 8 + b.getD 3 0

/-- `impl Iterator for Frames::next`: while the count byte is nonzero and a
full 14-byte record remains before the end of the 42-byte area, decode the
record at the cursor (big-endian 4-byte id, length byte at offset 4, 8 payload
bytes after the 6-byte header) and advance the cursor.  Note the source never
decrements `length`. -/
def Frames.next (s : Frames) : Option Frame × Frames :=
  if s.length > 0 ∧ s.index + CANFRAME_SIZE ≤ CANFRAME_MAX_NUM * CANFRAME_SIZE then
    let frame := (s.buffers.drop s.index).take CANFRAME_SIZE
    let id := id_from_u32 (u32_from_be_bytes (frame.take 4))
    let len := frame.getD 4 0
    let data := (frame.drop CANFRAME_HEADER_SIZE).take CANFRAME_DATA_SIZE
    (some { id := id, len := len, message := data },
      { s with index := s.index + CANFRAME_SIZE })
  else
    (none, s)

/-- Drive the iterator by calling `next` up to `n` times, collecting the
yielded frames; stops at the first `none`. -/
def Frames.nextN : Nat → Frames → List Frame
  | 0, _ => []
  | n + 1, s =>
    match s.next with
    | (some f, s') => f :: Frames.nextN n s'
    | (none, _) => []

/-- The concrete receive buffer of the spec scenario: count byte 2, two valid
records (standard id 1 with 2 data bytes, standard id 3 with 1 data byte),
then nonzero garbage bytes filling the rest of the fixed 43-byte array. -/
def scenarioBuffer : List Nat :=
  [2] ++
  ([0, 0, 0, 1] ++ [2, 0] ++ [0xAA, 0xBB, 0, 0, 0, 0, 0, 0]) ++
  ([0, 0, 0, 3] ++ [1, 0] ++ [0xCC, 0, 0, 0, 0, 0, 0, 0]) ++
  [9, 9, 9, 9, 9, 9, 9, 9, 9, 9, 9, 9, 9, 9]

/-- C1: the claim says the `Frames` iterator built from a buffer with count
byte 2 and two valid records yields exactly 2 records.  The code never
decrements `length`, so iteration is bounded only by the 42-byte record area:
on the scenario buffer, repeated `next` yields 3 frames (the third decoded
from the bytes beyond the declared count), refuting `min(C, R) = 2`. -/
theorem frames_next_ignores_count_byte :
    (Frames.nextN 4 (frames_from_buffer scenarioBuffer)).length = 3 ∧
      Frames.nextN 4 (frames_from_buffer scenarioBuffer) =
        [ { id := CanId.Standard 1, len := 2,
            message := [0xAA, 0xBB, 0, 0, 0, 0, 0, 0] },
          { id := CanId.Standard 3, len := 1,
            message := [0xCC, 0, 0, 0, 0, 0, 0, 0] },
          { id := CanId.Standard ((9 * 2 ^ 24 + 9 * 2 ^ 16 + 9 * 2 ^ 8 + 9) % 2 ^ 15),
            len := 9, message := [9, 9, 9, 9, 9, 9, 9, 9] } ] := by
  decide

/-- C2: the standard-identifier round trip holds for all 11-bit values, but
the extended round trip fails for every 29-bit value: `From<Id> for u32` emits
the raw value without the bit-30 discriminator that `From<u32> for Id` tests,
so decoding an encoded extended id always lands in the `Standard` branch.
Concrete refutation at `Id::Extended(0x1234)`. -/
theorem id_roundtrip_extended_fails :
    id_from_u32 (u32_from_id (CanId.Extended 0x1234)) = CanId.Standard 0x1234 ∧
      id_from_u32 (u32_from_id (CanId.Extended 0x1234)) ≠ CanId.Extended 0x1234 := by
  decide

-- ---------------------------------------------------------------------------
-- Scoped read-only allow buffers (src/platform/src/allow_ro.rs)
-- ---------------------------------------------------------------------------

/-- A kernel-visible syscall issued by the allow machinery, tagged with the
driver number and buffer slot (the `DRIVER_NUM`/`BUFFER_NUM` const generics). -/
inductive Syscall where
  | allowRo (driver buffer : Nat)
  | unallowRo (driver buffer : Nat)
  | allowRw (driver buffer : Nat)
  | unallowRw (driver buffer : Nat)
  | command (driver cmd arg0 arg1 : Nat)
  deriving DecidableEq, Repr

/-- The observable state of an `AllowRoBuffer`: just its `allowed` cell (the
byte contents play no role in the grant lifecycle). -/
structure AllowRoBuffer where
  allowed : Bool
  deriving DecidableEq, Repr

/-- `AllowRoBuffer::allow`: if not yet allowed, set the flag to true *before*
issuing the allow-ro syscall and return the kernel's result (`kres`);
otherwise return `Ok(())` with no syscall.  Returns
(result, new state, syscalls issued). -/
def AllowRoBuffer.allow (d b : Nat) (s : AllowRoBuffer)
    (kres : Except ErrorCode Unit) :
    Except ErrorCode Unit × AllowRoBuffer × List Syscall :=
  if ¬ s.allowed then
    (kres, { allowed := true }, [Syscall.allowRo d b])
  else
    (Except.ok (), s, [])

/-- `AllowRoBuffer::unallow`: if allowed, clear the flag and issue the
unallow-ro syscall; otherwise do nothing. -/
def AllowRoBuffer.unallow (d b : Nat) (s : AllowRoBuffer) :
    AllowRoBuffer × List Syscall :=
  if s.allowed then
    ({ allowed := false }, [Syscall.unallowRo d b])
  else
    (s, [])

/-- `impl Drop for AllowRoBuffer` simply calls `unallow`. -/
def AllowRoBuffer.drop (d b : Nat) (s : AllowRoBuffer) :
    AllowRoBuffer × List Syscall :=
  AllowRoBuffer.unallow d b s

/-- `impl Drop for AllowRo` (the scoped grant token): unconditionally issue
the unallow-ro syscall. -/
def AllowRo.drop (d b : Nat) : List Syscall :=
  [Syscall.unallowRo d b]

/-- One call in a sequence of operations on an `AllowRoBuffer`: an `allow`
attempt (carrying the kernel's answer to the allow-ro syscall, should one be
issued) or an `unallow`. -/
inductive AllowOp where
  | allow (kres : Except ErrorCode Unit)
  | unallow
  deriving Repr

/-- Run a sequence of allow/unallow calls from a state, accumulating the
syscall trace (results returned to the caller are dropped). -/
def runAllowOps (d b : Nat) : List AllowOp → AllowRoBuffer →
    AllowRoBuffer × List Syscall
  | [], s => (s, [])
  | AllowOp.allow kres :: ops, s =>
    let r := AllowRoBuffer.allow d b s kres
    let rest := runAllowOps d b ops r.2.1
    (rest.1, r.2.2 ++ rest.2)
  | AllowOp.unallow :: ops, s =>
    let r := AllowRoBuffer.unallow d b s
    let rest := runAllowOps d b ops r.1
    (rest.1, r.2 ++ rest.2)

/-- C3: after any sequence of allow/unallow calls, dropping the buffer leaves
`allowed = false` and issues the unallow-ro revocation exactly when the grant
was still active (and dropping a scoped `AllowRo` token always revokes), so no
exit path skips revocation. -/
theorem allowRoBuffer_drop_revokes (d b : Nat) (ops : List AllowOp)
    (s0 : AllowRoBuffer) :
    ((AllowRoBuffer.drop d b (runAllowOps d b ops s0).1).1.allowed = false ∧
      (AllowRoBuffer.drop d b (runAllowOps d b ops s0).1).2 =
        (if (runAllowOps d b ops s0).1.allowed then [Syscall.unallowRo d b]
          else [])) ∧
      AllowRo.drop d b = [Syscall.unallowRo d b] := by
  constructor
  · cases h : (runAllowOps d b ops s0).1.allowed <;>
      simp [AllowRoBuffer.drop, AllowRoBuffer.unallow, h]
  · rfl

/-- C7: `allow` on an already-allowed buffer is a no-op success issuing no
syscall; `unallow` on a not-allowed buffer is a no-op issuing no syscall; and
`unallow` on an allowed buffer immediately clears the flag and issues the
unallow-ro revocation. -/
theorem allowRoBuffer_allow_unallow_idempotent (d b : Nat)
    (kres : Except ErrorCode Unit) :
    AllowRoBuffer.allow d b { allowed := true } kres =
        (Except.ok (), { allowed := true }, []) ∧
      AllowRoBuffer.unallow d b { allowed := false } =
        ({ allowed := false }, []) ∧
      AllowRoBuffer.unallow d b { allowed := true } =
        ({ allowed := false }, [Syscall.unallowRo d b]) := by
  refine ⟨?_, by simp [AllowRoBuffer.unallow], by simp [AllowRoBuffer.unallow]⟩
  simp [AllowRoBuffer.allow]

/-- C9: when `allow` on a not-allowed buffer gets an error from the allow-ro
syscall, the error is returned but the `allowed` flag is left true; every
subsequent `allow` then succeeds without a syscall, and a subsequent `unallow`
issues a revocation for the never-accepted grant. -/
theorem allowRoBuffer_allow_error_leaves_flag_set (d b : Nat) (e : ErrorCode)
    (kres : Except ErrorCode Unit) :
    AllowRoBuffer.allow d b { allowed := false } (Except.error e) =
        (Except.error e, { allowed := true }, [Syscall.allowRo d b]) ∧
      AllowRoBuffer.allow d b { allowed := true } kres =
        (Except.ok (), { allowed := true }, []) ∧
      AllowRoBuffer.unallow d b { allowed := true } =
        ({ allowed := false }, [Syscall.unallowRo d b]) := by
  refine ⟨by simp [AllowRoBuffer.allow], ?_, by simp [AllowRoBuffer.unallow]⟩
  simp [AllowRoBuffer.allow]

-- ---------------------------------------------------------------------------
-- Time driver (src/src/alarm.rs, `AsyncAlarmDriver` / `EmbassyListener`)
-- ---------------------------------------------------------------------------

def u32MAX : Nat := 2 ^ 32 - 1
def u64MAX : Nat := 2 ^ 64 - 1

/-- `impl Driver for AsyncAlarmDriver::now`: load the overflow count and add
the raw hardware tick value to it shifted left by 32, in u64 arithmetic
(`Alarm::get_ticks().unwrap() as u64 + (overflows << 32)`). -/
def driver_now (overflows ticks : Nat) : Nat :=
  (ticks + overflows * 2 ^ 32) % 2 ^ 64

/-- C4: for every overflow count `k < 2^32` and raw tick value `t < 2^32`,
`now()` returns the 64-bit value `k * 2^32 + t` (the u64 addition cannot
wrap), combining the tick register with the stored overflow count. -/
theorem driver_now_combines (k t : Nat) (hk : k < 2 ^ 32) (ht : t < 2 ^ 32) :
    driver_now k t = k * 2 ^ 32 + t := by
  unfold driver_now
  omega

/-- Witness for C4 at `k = 5`, `t = 7`. -/
theorem driver_now_combines_witness :
    driver_now 5 7 = 5 * 2 ^ 32 + 7 :=
  driver_now_combines 5 7 (by norm_num) (by norm_num)

/-- Elements of `x ||| (2^n - 1)`: the low `n` bits become all-ones and the
bits above `n` are those of `x`. -/
theorem or_low_mask (x n : Nat) :
    x ||| (2 ^ n - 1) = 2 ^ n * (x / 2 ^ n) + (2 ^ n - 1) := by
  apply Nat.eq_of_testBit_eq
  intro i
  rcases Nat.lt_or_ge i n with h | h
  · have h2 : (2 ^ n * (x / 2 ^ n) + (2 ^ n - 1)) % 2 ^ n = 2 ^ n - 1 := by
      rw [Nat.mul_add_mod]
      exact Nat.mod_eq_of_lt (by have := Nat.two_pow_pos n; omega)
    have h1 : Nat.testBit (2 ^ n * (x / 2 ^ n) + (2 ^ n - 1)) i
        = Nat.testBit ((2 ^ n * (x / 2 ^ n) + (2 ^ n - 1)) % 2 ^ n) i := by
      simp [Nat.testBit_mod_two_pow, h]
    rw [Nat.testBit_lor, h1, h2, Nat.testBit_two_pow_sub_one]
    simp [h]
  · have key : ∀ y : Nat, Nat.testBit y i = Nat.testBit (y / 2 ^ n) (i - n) := by
      intro y
      rw [← Nat.shiftRight_eq_div_pow, Nat.testBit_shiftRight,
        Nat.add_sub_cancel' h]
    have e3 : (2 ^ n * (x / 2 ^ n) + (2 ^ n - 1)) / 2 ^ n = x / 2 ^ n := by
      rw [Nat.mul_add_div (Nat.two_pow_pos n)]
      have : (2 ^ n - 1) / 2 ^ n = 0 :=
        Nat.div_eq_of_lt (by have := Nat.two_pow_pos n; omega)
      omega
    rw [Nat.testBit_lor, Nat.testBit_two_pow_sub_one,
      key x, key (2 ^ n * (x / 2 ^ n) + (2 ^ n - 1)), e3]
    simp [Nat.not_lt.mpr h]

/-- State of the `AsyncAlarmDriver` singleton: the `overflow_next` flag, the
`overflows` counter (u32), and the pending deadline queue (u64 instants). -/
structure AlarmDriverState where
  overflow_next : Bool
  overflows : Nat
  queue : List Nat
  deriving DecidableEq, Repr

/-- The `set_absolute` command's arguments: a u32 reference instant and a u32
delta; the armed target is `reference + dt` modulo `2^32`. -/
structure SetAbsolute where
  reference : Nat
  dt : Nat
  deriving DecidableEq, Repr

/-- The deadline queue after the external `embassy_time_queue_utils`
`Queue::next_expiration(now)` call: every entry at or before `now` has been
woken and removed. -/
def queueAfter (q : List Nat) (now : Nat) : List Nat :=
  q.filter (fun d => now < d)

/-- The value returned by `Queue::next_expiration(now)`: the earliest
remaining deadline, or `u64::MAX` when none remains. -/
def next_expiration (q : List Nat) (now : Nat) : Nat :=
  (queueAfter q now).foldr min u64MAX

/-- `impl Upcall for EmbassyListener::upcall` (src/src/alarm.rs): consume the
latched `overflow_next` flag (`fetch_and(false)`); if it was set, increment
`overflows` (u32 `fetch_add`, wrapping); compute `now` from the new count and
the tick argument, drain the expired queue entries, and rearm the physical
alarm at the nearer of the earliest remaining deadline and the next overflow
boundary `now ||| u32::MAX`, latching `overflow_next` when the boundary wins.
Returns `none` when the `while next <= now` loop cannot terminate (the drained
queue makes `next_expiration` re-read the same value forever, which happens
exactly when it stays at or below `now`). -/
def alarm_upcall (s : AlarmDriverState) (nowTick : Nat) :
    Option (AlarmDriverState × SetAbsolute) :=
  let overflows :=
    if s.overflow_next then (s.overflows + 1) % 2 ^ 32 else s.overflows
  let now := (overflows * 2 ^ 32 + nowTick) % 2 ^ 64
  let next_overflow := now ||| u32MAX
  let queue := queueAfter s.queue now
  let next := next_expiration s.queue now
  if next ≤ now then
    none
  else if next_overflow ≤ next then
    some ({ overflow_next := true, overflows := overflows, queue := queue },
      { reference := now % 2 ^ 32, dt := (next_overflow - now) % 2 ^ 32 })
  else
    some ({ overflow_next := false, overflows := overflows, queue := queue },
      { reference := now % 2 ^ 32, dt := (next - now) % 2 ^ 32 })

/-- C5: when the physical alarm fires with `overflow_next` latched and an
empty deadline queue, the handler increments `overflows` by exactly 1 and
rearms the alarm for the next overflow boundary with `overflow_next` set
again: the issued `set_absolute` has reference `t` and delta
`u32::MAX - t`, whose sum is the boundary `now ||| u32::MAX` (mod `2^32`). -/
theorem alarm_upcall_overflow_rearms (k t : Nat) (ht : t < 2 ^ 32)
    (hk : k + 1 < 2 ^ 32) (hnow : (k + 1) * 2 ^ 32 + t < u64MAX) :
    alarm_upcall { overflow_next := true, overflows := k, queue := [] } t =
      some ({ overflow_next := true, overflows := k + 1, queue := [] },
        { reference := t, dt := u32MAX - t }) := by
  unfold alarm_upcall
  simp only [next_expiration, queueAfter, List.filter_nil, List.foldr_nil,
    if_true]
  have h1 : (k + 1) % 2 ^ 32 = k + 1 := Nat.mod_eq_of_lt hk
  have h2 : ((k + 1) * 2 ^ 32 + t) % 2 ^ 64 = (k + 1) * 2 ^ 32 + t := by
    apply Nat.mod_eq_of_lt
    unfold u64MAX at hnow
    omega
  have hdiv : ((k + 1) * 2 ^ 32 + t) / 2 ^ 32 = k + 1 := by omega
  have hor : ((k + 1) * 2 ^ 32 + t) ||| u32MAX
      = 2 ^ 32 * (k + 1) + (2 ^ 32 - 1) := by
    unfold u32MAX
    rw [or_low_mask, hdiv]
  rw [h1, h2, hor]
  have hne : ¬ u64MAX ≤ (k + 1) * 2 ^ 32 + t := by omega
  rw [if_neg hne]
  have hle : 2 ^ 32 * (k + 1) + (2 ^ 32 - 1) ≤ u64MAX := by
    unfold u64MAX
    omega
  rw [if_pos hle]
  have href : ((k + 1) * 2 ^ 32 + t) % 2 ^ 32 = t := by omega
  have hdt : (2 ^ 32 * (k + 1) + (2 ^ 32 - 1) - ((k + 1) * 2 ^ 32 + t)) % 2 ^ 32
      = u32MAX - t := by
    unfold u32MAX
    omega
  rw [href, hdt]

/-- Witness for C5 at `k = 3`, `t = 100`. -/
theorem alarm_upcall_overflow_rearms_witness :
    alarm_upcall { overflow_next := true, overflows := 3, queue := [] } 100 =
      some ({ overflow_next := true, overflows := 4, queue := [] },
        { reference := 100, dt := u32MAX - 100 }) :=
  alarm_upcall_overflow_rearms 3 100 (by norm_num) (by norm_num)
    (by unfold u64MAX; norm_num)

-- ---------------------------------------------------------------------------
-- Console driver (src/src/console.rs, `ConsoleAsync`)
-- ---------------------------------------------------------------------------

def CONSOLE_DRIVER_NUM : Nat := 0x1
def console_command_WRITE : Nat := 1
def console_command_READ : Nat := 2
def console_allow_ro_WRITE : Nat := 1
def console_allow_rw_READ : Nat := 1

/-- The process-wide `ConsoleAsyncStorage` singleton: the busy flag and the
completion cell (bytes transferred, status). -/
structure ConsoleStorage where
  busy : Bool
  result : Option (Nat × Except ErrorCode Unit)
  deriving Repr

/-- `ConsoleAsync::try_write`: `fetch_or` the busy flag and bail out with
`Busy` if it was set; otherwise allow the buffer, issue the write command
(Rust `res.and(expr)` evaluates `expr` eagerly, so the command is issued even
if the allow failed), await the upcall-delivered transaction result if both
succeeded, and clear the busy flag.  `transaction` is the value the write
upcall stores in the completion cell, which the await drains; the function
returns (result, storage, buffer state, syscalls issued). -/
def console_try_write (st : ConsoleStorage) (buf : AllowRoBuffer)
    (allowKres cmdRes : Except ErrorCode Unit)
    (transaction : Nat × Except ErrorCode Unit) (size : Nat) :
    Except ErrorCode Unit × ConsoleStorage × AllowRoBuffer × List Syscall :=
  if st.busy then
    (Except.error ErrorCode.busy, st, buf, [])
  else
    let a := AllowRoBuffer.allow CONSOLE_DRIVER_NUM console_allow_ro_WRITE
      buf allowKres
    let trace := a.2.2 ++
      [Syscall.command CONSOLE_DRIVER_NUM console_command_WRITE size 0]
    let res := match a.1 with
      | Except.error e => Except.error e
      | Except.ok _ => cmdRes
    match res with
    | Except.ok _ =>
      (transaction.2, { busy := false, result := none }, a.2.1, trace)
    | Except.error e =>
      (Except.error e, { busy := false, result := st.result }, a.2.1, trace)

/-- `ConsoleAsync::try_read`: same transaction-guard shape as `try_write`,
returning `(0, Err(Busy))` when the busy flag is already set, and otherwise
allowing the read buffer (modelled by its `allowed` flag and the kernel's
answer), issuing the read command, and awaiting the upcall result. -/
def console_try_read (st : ConsoleStorage) (bufAllowed : Bool)
    (allowKres cmdRes : Except ErrorCode Unit)
    (transaction : Nat × Except ErrorCode Unit) (size : Nat) :
    (Nat × Except ErrorCode Unit) × ConsoleStorage × Bool × List Syscall :=
  if st.busy then
    ((0, Except.error ErrorCode.busy), st, bufAllowed, [])
  else
    let allowTrace : List Syscall := if ¬ bufAllowed then
      [Syscall.allowRw CONSOLE_DRIVER_NUM console_allow_rw_READ] else []
    let allowRes := if ¬ bufAllowed then allowKres else Except.ok ()
    let trace := allowTrace ++
      [Syscall.command CONSOLE_DRIVER_NUM console_command_READ size 0]
    let res := match allowRes with
      | Except.error e => Except.error e
      | Except.ok _ => cmdRes
    match res with
    | Except.ok _ => (transaction, { busy := false, result := none }, true, trace)
    | Except.error e =>
      ((0, Except.error e), { busy := false, result := st.result }, true, trace)

-- ---------------------------------------------------------------------------
-- I2C master driver (src/src/i2c_master.rs, `AsyncI2cMaster`)
-- ---------------------------------------------------------------------------

def I2C_DRIVER_NUM : Nat := 0x20003
def i2c_MASTER_WRITE : Nat := 1
def i2c_MASTER_READ : Nat := 2
def i2c_MASTER_WRITE_READ : Nat := 4
def i2c_rw_allow_MASTER : Nat := 1
def i2c_ro_allow_MASTER : Nat := 0

/-- The process-wide `AsyncI2cMasterStorage` singleton. -/
structure I2cStorage where
  busy : Bool
  result : Option (Except ErrorCode Unit)
  deriving Repr

/-- `AsyncI2cMaster::read`: `fetch_or` the busy flag and bail out with `Busy`
if it was set; otherwise, inside an async scope, allow the read-write buffer,
issue the read command (`?` short-circuits, so a failed allow issues no
command), await the transaction, revoke the buffer on scope exit, and clear
the busy flag. -/
def i2c_read (st : I2cStorage) (allowRes cmdRes : Except ErrorCode Unit)
    (transaction : Except ErrorCode Unit) (addr len : Nat) :
    Except ErrorCode Unit × I2cStorage × List Syscall :=
  if st.busy then
    (Except.error ErrorCode.busy, st, [])
  else
    match allowRes with
    | Except.error e =>
      (Except.error e, { busy := false, result := st.result },
        [Syscall.allowRw I2C_DRIVER_NUM i2c_rw_allow_MASTER,
          Syscall.unallowRw I2C_DRIVER_NUM i2c_rw_allow_MASTER])
    | Except.ok _ =>
      let trace := [Syscall.allowRw I2C_DRIVER_NUM i2c_rw_allow_MASTER,
        Syscall.command I2C_DRIVER_NUM i2c_MASTER_READ addr len,
        Syscall.unallowRw I2C_DRIVER_NUM i2c_rw_allow_MASTER]
      match cmdRes with
      | Except.error e =>
        (Except.error e, { busy := false, result := st.result }, trace)
      | Except.ok _ => (transaction, { busy := false, result := none }, trace)

/-- `AsyncI2cMaster::write`: as `read` but with the read-only allow and the
write command. -/
def i2c_write (st : I2cStorage) (allowRes cmdRes : Except ErrorCode Unit)
    (transaction : Except ErrorCode Unit) (addr len : Nat) :
    Except ErrorCode Unit × I2cStorage × List Syscall :=
  if st.busy then
    (Except.error ErrorCode.busy, st, [])
  else
    match allowRes with
    | Except.error e =>
      (Except.error e, { busy := false, result := st.result },
        [Syscall.allowRo I2C_DRIVER_NUM i2c_ro_allow_MASTER,
          Syscall.unallowRo I2C_DRIVER_NUM i2c_ro_allow_MASTER])
    | Except.ok _ =>
      let trace := [Syscall.allowRo I2C_DRIVER_NUM i2c_ro_allow_MASTER,
        Syscall.command I2C_DRIVER_NUM i2c_MASTER_WRITE addr len,
        Syscall.unallowRo I2C_DRIVER_NUM i2c_ro_allow_MASTER]
      match cmdRes with
      | Except.error e =>
        (Except.error e, { busy := false, result := st.result }, trace)
      | Except.ok _ => (transaction, { busy := false, result := none }, trace)

/-- `AsyncI2cMaster::write_read`: as `read` but with both allows and the
write-read command whose first argument packs `(write_len << 8) | addr`. -/
def i2c_write_read (st : I2cStorage)
    (allowRoRes allowRwRes cmdRes : Except ErrorCode Unit)
    (transaction : Except ErrorCode Unit) (addr writeLen readLen : Nat) :
    Except ErrorCode Unit × I2cStorage × List Syscall :=
  if st.busy then
    (Except.error ErrorCode.busy, st, [])
  else
    let exitTrace := [Syscall.unallowRo I2C_DRIVER_NUM i2c_ro_allow_MASTER,
      Syscall.unallowRw I2C_DRIVER_NUM i2c_rw_allow_MASTER]
    match allowRoRes with
    | Except.error e =>
      (Except.error e, { busy := false, result := st.result },
        Syscall.allowRo I2C_DRIVER_NUM i2c_ro_allow_MASTER :: exitTrace)
    | Except.ok _ =>
      match allowRwRes with
      | Except.error e =>
        (Except.error e, { busy := false, result := st.result },
          Syscall.allowRo I2C_DRIVER_NUM i2c_ro_allow_MASTER ::
            Syscall.allowRw I2C_DRIVER_NUM i2c_rw_allow_MASTER :: exitTrace)
      | Except.ok _ =>
        let trace := Syscall.allowRo I2C_DRIVER_NUM i2c_ro_allow_MASTER ::
          Syscall.allowRw I2C_DRIVER_NUM i2c_rw_allow_MASTER ::
          Syscall.command I2C_DRIVER_NUM i2c_MASTER_WRITE_READ
            ((writeLen * 2 ^ 8 + addr % 2 ^ 16) % 2 ^ 32) readLen :: exitTrace
        match cmdRes with
        | Except.error e =>
          (Except.error e, { busy := false, result := st.result }, trace)
        | Except.ok _ => (transaction, { busy := false, result := none }, trace)

/-- C6: for every operation guarded by the process-wide busy flag (console
`try_write`/`try_read`, I2C `read`/`write`/`write_read`), a call made while
the flag is already set returns `Err(Busy)` immediately: no allow or command
syscall is issued (empty trace), nothing is retried, and the storage —
including the outstanding operation's result cell — is left untouched. -/
theorem busy_guard_fails_fast (r : Option (Nat × Except ErrorCode Unit))
    (ri : Option (Except ErrorCode Unit)) (buf : AllowRoBuffer) (ba : Bool)
    (a c : Except ErrorCode Unit) (tr : Nat × Except ErrorCode Unit)
    (ti : Except ErrorCode Unit) (a2 : Except ErrorCode Unit)
    (n1 n2 n3 : Nat) :
    console_try_write { busy := true, result := r } buf a c tr n1 =
        (Except.error ErrorCode.busy, { busy := true, result := r }, buf, []) ∧
      console_try_read { busy := true, result := r } ba a c tr n1 =
        ((0, Except.error ErrorCode.busy),
          { busy := true, result := r }, ba, []) ∧
      i2c_read { busy := true, result := ri } a c ti n1 n2 =
        (Except.error ErrorCode.busy, { busy := true, result := ri }, []) ∧
      i2c_write { busy := true, result := ri } a c ti n1 n2 =
        (Except.error ErrorCode.busy, { busy := true, result := ri }, []) ∧
      i2c_write_read { busy := true, result := ri } a a2 c ti n1 n2 n3 =
        (Except.error ErrorCode.busy, { busy := true, result := ri }, []) := by
  refine ⟨rfl, rfl, rfl, rfl, rfl⟩

-- ---------------------------------------------------------------------------
-- Milliseconds-to-ticks conversion (src/apis/peripherals/alarm/src/lib.rs)
-- ---------------------------------------------------------------------------

/-- `u32::saturating_mul`: the product tops out at `u32::MAX` instead of
wrapping. -/
def saturating_mul (a b : Nat) : Nat :=
  min (a * b) u32MAX

/-- The source's local `div_ceil` helper: quotient plus one when the remainder
is nonzero. -/
def div_ceil (a other : Nat) : Nat :=
  let d := a / other
  let m := a % other
  if m = 0 then d else d + 1

/-- `impl Convert for Milliseconds::to_ticks`:
`Ticks(div_ceil(self.0.saturating_mul(freq.0), 1000))`. -/
def milliseconds_to_ticks (ms freq : Nat) : Nat :=
  div_ceil (saturating_mul ms freq) 1000

/-- C8: `Milliseconds(m).to_ticks(Hz(f))` equals the ceiling of
`saturate_u32(m * f) / 1000`: the product saturates at `u32::MAX` rather than
wrapping, and the division by 1000 rounds up. -/
theorem milliseconds_to_ticks_saturates_and_rounds_up (m f : Nat) :
    milliseconds_to_ticks m f = (min (m * f) u32MAX + 999) / 1000 := by
  unfold milliseconds_to_ticks div_ceil saturating_mul u32MAX
  simp only [Nat.min_def]
  split_ifs <;> (try contradiction) <;> omega

-- ---------------------------------------------------------------------------
-- CAN receiver session (src/apis/can/src/lib.rs, `Can::start_receive`)
-- ---------------------------------------------------------------------------

/-- Kernel answers to the four fallible steps of `Can::start_receive`:
subscribe to message-received, allow-rw the receive buffer, the
start-receiver command, and the stop-receiver command. -/
structure CanReceiveKernel where
  subscribeRes : Except ErrorCode Unit
  allowRes : Except ErrorCode Unit
  startRes : Except ErrorCode Unit
  stopRes : Except ErrorCode Unit
  deriving Repr

/-- `Can::start_receive`: subscribe, allow the buffer, issue the
start-receiver command mapping `Err(Already)` to success
(`if let Err(ErrorCode::Already) = r { Ok(()) } else { r }?`), run the
caller's callback `f`, then issue the stop-receiver command whose result is
the scope's result.  Returns (callback ran, stop command issued, result). -/
def can_start_receive (k : CanReceiveKernel) :
    Bool × Bool × Except ErrorCode Unit :=
  match k.subscribeRes with
  | Except.error e => (false, false, Except.error e)
  | Except.ok _ =>
    match k.allowRes with
    | Except.error e => (false, false, Except.error e)
    | Except.ok _ =>
      let r : Except ErrorCode Unit := match k.startRes with
        | Except.error ErrorCode.already => Except.ok ()
        | r => r
      match r with
      | Except.error e => (false, false, Except.error e)
      | Except.ok _ => (true, true, k.stopRes)

/-- C10: with subscribe and allow succeeding, `Can::start_receive` treats
`Err(Already)` from the start-receiver command as success — the callback runs
and the stop-receiver command is issued afterwards — while every other
start-receiver error is propagated to the caller without running the
callback. -/
theorem can_start_receive_already_is_success
    (stopRes : Except ErrorCode Unit) (e : ErrorCode) :
    can_start_receive
        { subscribeRes := Except.ok (), allowRes := Except.ok (),
          startRes := Except.error ErrorCode.already, stopRes := stopRes } =
      (true, true, stopRes) ∧
      can_start_receive
          { subscribeRes := Except.ok (), allowRes := Except.ok (),
            startRes := Except.error e, stopRes := stopRes } =
        (if e = ErrorCode.already then (true, true, stopRes)
          else (false, false, Except.error e)) := by
  constructor
  · rfl
  · cases e <;> simp [can_start_receive]
